import Mathlib

/-!
Verification development for the protocol converter of the go-aiproxy
repository (internal/convert/converter.go together with the model structs
of pkg/models).  The Go code is shallowly embedded: every struct becomes a
Lean structure with the same fields (Go `int` becomes `Int`, Go `float64`
becomes `Rat` — the converter only compares these floats with 0 and passes
constants 1.0 / 0.9 through, so no rounding behaviour is lost), pointers
become `Option`, and the dynamic `interface{}` payloads become small sum
types listing the shapes the converter actually produces or inspects.
Opaque JSON trees (`map[string]interface{}` schemas / tool arguments) are
represented by their serialized text (`JsonObj`); the converter only moves
them around and (un)marshals them, which the text representation models.
`uuid.New()` and `time.Now()` are modelled by an explicit `Env` argument.
-/

namespace GoAIProxy

/-! ### Go string-library helpers used by the converter -/

/-- Go `strings.TrimPrefix(s, pre)`: drop `pre` when `s` starts with it. -/
def goTrimPfx (s pre : String) : String :=
  if s.startsWith pre then s.drop pre.length else s

/-- Go `strings.SplitN(s, sep, 2)`: split at the first occurrence of `sep`
only, keeping the remainder (separators included) in the second element. -/
def goSplitN2 (s sep : String) : List String :=
  match s.splitOn sep with
  | [] => [s]
  | [x] => [x]
  | x :: rest => [x, String.intercalate sep rest]

/-- Go `strings.Split(s, sep)[0]` (Split never returns an empty slice). -/
def goSplitHead (s sep : String) : String :=
  (s.splitOn sep).headD ""

/-- Go `strings.Join(elems, sep)`. -/
def goJoin (elems : List String) (sep : String) : String :=
  match elems with
  | [] => ""
  | x :: xs => xs.foldl (fun acc e => acc ++ sep ++ e) x

/-! ### pkg/models: shared model types (src/unnamed/part_005) -/

/-- Opaque structured-data tree (`map[string]interface{}` in Go), represented
by its canonical serialized JSON text.  `json.Marshal` of a tree returns this
text and `json.Unmarshal` of the text returns the tree, which is all the
converter ever does with these values (failure of `Unmarshal` on malformed
text is ignored by the converter and not modelled). -/
structure JsonObj where
  raw : String
deriving DecidableEq

/-- Go `c.marshalJSON(v)` for an optional tree (`json.Marshal` of a nil map
prints `null`; the error is discarded in the source). -/
def marshalJSON : Option JsonObj → String
  | some o => o.raw
  | none => "null"

/-- Go `json.Unmarshal([]byte(s), &input)` for a tree, error ignored. -/
def jsonUnmarshalObj (s : String) : Option JsonObj :=
  some ⟨s⟩

/-- Go `fmt.Sprintf("%v", x)` on an `interface{}` holding a string or nil. -/
def goFormatV : Option String → String
  | some s => s
  | none => "<nil>"

/-- Environment for the non-deterministic calls `uuid.New().String()` and
`time.Now().Unix()` made while building response envelopes. -/
structure Env where
  uuid : String
  now : Int
deriving DecidableEq

/-- `models.ProtocolPrefix` (a string type in Go); the dispatch only ever
compares it with the three constants `"openai"`, `"claude"`, `"gemini"`. -/
inductive Protocol where
  | openai
  | claude
  | gemini
deriving DecidableEq

/-- The string value of a `models.ProtocolPrefix` constant (used by the
`fmt.Errorf` messages). -/
def protocolName : Protocol → String
  | .openai => "openai"
  | .claude => "claude"
  | .gemini => "gemini"

def RoleSystem : String := "system"
def RoleUser : String := "user"
def RoleAssistant : String := "assistant"
def RoleModel : String := "model"
def RoleTool : String := "tool"

/-! OpenAI model structs -/

structure ImageURL where
  url : String
deriving DecidableEq

structure ContentPart where
  type : String := ""
  text : String := ""
  imageURL : Option ImageURL := none
  audioURL : Option ImageURL := none
deriving DecidableEq

/-- The dynamic `Content interface{}` of an `OpenAIMessage`: a plain string,
a typed `[]ContentPart` slice, or the nil interface.  (The raw JSON-decoded
`[]interface{}` shape only arises from `json.Unmarshal`, which this
embedding does not model; every modelled code path builds typed content.) -/
inductive OpenAIContent where
  | null
  | str (s : String)
  | parts (l : List ContentPart)
deriving DecidableEq

structure ToolCallFunction where
  name : String := ""
  arguments : String := ""
deriving DecidableEq

structure ToolCall where
  id : String := ""
  type : String := ""
  function : ToolCallFunction := {}
  index : Int := 0
deriving DecidableEq

structure ToolFunction where
  name : String := ""
  description : String := ""
  parameters : Option JsonObj := none
deriving DecidableEq

structure Tool where
  type : String := ""
  function : ToolFunction := {}
deriving DecidableEq

structure OpenAIMessage where
  role : String := ""
  content : OpenAIContent := .null
  name : String := ""
  toolCalls : List ToolCall := []
  toolCallID : String := ""
deriving DecidableEq

structure OpenAIRequest where
  model : String := ""
  messages : List OpenAIMessage := []
  maxTokens : Int := 0
  temperature : Rat := 0
  topP : Rat := 0
  stream : Bool := false
  tools : List Tool := []
  reasoningEffort : String := ""
  maxCompletionTokens : Int := 0
deriving DecidableEq

structure Usage where
  promptTokens : Int := 0
  completionTokens : Int := 0
  totalTokens : Int := 0
deriving DecidableEq

structure OpenAIChoice where
  index : Int := 0
  message : Option OpenAIMessage := none
  delta : Option OpenAIMessage := none
  finishReason : String := ""
deriving DecidableEq

structure OpenAIResponse where
  id : String := ""
  object : String := ""
  created : Int := 0
  model : String := ""
  choices : List OpenAIChoice := []
  usage : Option Usage := none
  systemFingerprint : String := ""
deriving DecidableEq

/-- `models.OpenAIMessage.GetContentAsString`.  Note the Go switch only has
cases for `string` and raw `[]interface{}`; a typed `[]ContentPart` slice
falls to the `default` branch and yields `""`. -/
def OpenAIMessage.GetContentAsString (m : OpenAIMessage) : String :=
  match m.content with
  | .str v => v
  | .parts _ => ""
  | .null => ""

/-- `models.OpenAIMessage.GetContentAsParts`. -/
def OpenAIMessage.GetContentAsParts (m : OpenAIMessage) : List ContentPart :=
  match m.content with
  | .str v => [{ type := "text", text := v }]
  | .parts v => v
  | .null => []

/-! Claude model structs -/

structure ClaudeImageSource where
  type : String := ""
  mediaType : String := ""
  data : String := ""
deriving DecidableEq

structure ClaudeContent where
  type : String := ""
  text : String := ""
  source : Option ClaudeImageSource := none
  id : String := ""
  name : String := ""
  input : Option JsonObj := none
  toolUseID : String := ""
  content : Option String := none
  thinking : String := ""
deriving DecidableEq

structure ClaudeMessage where
  role : String := ""
  content : List ClaudeContent := []
deriving DecidableEq

structure ClaudeTool where
  name : String := ""
  description : String := ""
  inputSchema : Option JsonObj := none
deriving DecidableEq

structure ClaudeRequest where
  model : String := ""
  messages : List ClaudeMessage := []
  system : String := ""
  maxTokens : Int := 0
  temperature : Rat := 0
  topP : Rat := 0
  stream : Bool := false
  tools : List ClaudeTool := []
deriving DecidableEq

structure ClaudeUsage where
  inputTokens : Int := 0
  outputTokens : Int := 0
deriving DecidableEq

structure ClaudeResponse where
  id : String := ""
  type : String := ""
  role : String := ""
  content : List ClaudeContent := []
  model : String := ""
  stopReason : String := ""
  stopSequence : Option String := none
  usage : Option ClaudeUsage := none
deriving DecidableEq

/-! Gemini model structs.  Note `GeminiRequest` carries no model field. -/

structure GeminiInlineData where
  mimeType : String := ""
  data : String := ""
deriving DecidableEq

structure GeminiFileData where
  mimeType : String := ""
  fileURI : String := ""
deriving DecidableEq

structure GeminiPart where
  text : String := ""
  inlineData : Option GeminiInlineData := none
  fileData : Option GeminiFileData := none
deriving DecidableEq

structure GeminiContent where
  role : String := ""
  parts : List GeminiPart := []
deriving DecidableEq

structure GeminiSystemInstruction where
  parts : List GeminiPart := []
deriving DecidableEq

structure GeminiGenerationConfig where
  temperature : Rat := 0
  topP : Rat := 0
  maxOutputTokens : Int := 0
  stopSequences : List String := []
deriving DecidableEq

structure GeminiFunctionDeclaration where
  name : String := ""
  description : String := ""
  parameters : Option JsonObj := none
deriving DecidableEq

structure GeminiTool where
  functionDeclarations : List GeminiFunctionDeclaration := []
deriving DecidableEq

structure GeminiRequest where
  contents : List GeminiContent := []
  systemInstruction : Option GeminiSystemInstruction := none
  generationConfig : Option GeminiGenerationConfig := none
  tools : List GeminiTool := []
deriving DecidableEq

structure GeminiUsage where
  promptTokenCount : Int := 0
  candidatesTokenCount : Int := 0
  totalTokenCount : Int := 0
deriving DecidableEq

structure GeminiCandidate where
  content : GeminiContent := {}
  finishReason : String := ""
deriving DecidableEq

structure GeminiResponse where
  candidates : List GeminiCandidate := []
  usageMetadata : Option GeminiUsage := none
deriving DecidableEq

/-! Stream chunk and model list structs -/

structure StreamChoice where
  index : Int := 0
  delta : Option OpenAIMessage := none
  finishReason : String := ""
deriving DecidableEq

structure StreamChunk where
  id : String := ""
  object : String := ""
  created : Int := 0
  model : String := ""
  choices : List StreamChoice := []
  usage : Option Usage := none
deriving DecidableEq

structure ModelInfo where
  id : String := ""
  object : String := ""
  created : Int := 0
  ownedBy : String := ""
deriving DecidableEq

structure ModelList where
  object : String := ""
  data : List ModelInfo := []
deriving DecidableEq

/-! ### Dynamic payload sums for the dispatch methods

Each `Convert*` method of `DefaultConverter` takes and returns
`interface{}`; these sums list the payload shapes the dispatch actually
receives and produces. -/

inductive ReqData where
  | openaiReq (r : OpenAIRequest)
  | claudeReq (r : ClaudeRequest)
  | geminiReq (r : GeminiRequest)
deriving DecidableEq

inductive RespData where
  | openaiResp (r : OpenAIResponse)
  | claudeResp (r : ClaudeResponse)
  | geminiResp (r : GeminiResponse)
deriving DecidableEq

/-- Stream chunk payloads: the Gemini and Claude paths type-assert the data
to `string`; the stubbed conversions toward Claude return the nil
interface (`.null`). -/
inductive ChunkData where
  | null
  | str (s : String)
  | chunk (c : StreamChunk)
deriving DecidableEq

inductive ListData where
  | list (l : ModelList)
deriving DecidableEq

/-! ### converter.go: constants and helper -/

def DefaultMaxTokens : Int := 8192
def DefaultGeminiMaxTokens : Int := 65536
def DefaultTemperature : Rat := 1
/-- `DefaultTopP = 0.9` (float literal in the source). -/
def DefaultTopP : Rat := 9/10

/-- `checkAndAssignOrDefault[T comparable]`: keep `value` when it differs
from the zero value of `T`, otherwise substitute `defaultValue`. -/
def checkAndAssignOrDefault {T : Type} [Zero T] [DecidableEq T]
    (value defaultValue : T) : T :=
  if value ≠ 0 then value else defaultValue

/-! ### converter.go: Gemini → OpenAI -/

/-- Body of the loop of `processGeminiPartsToOpenAIContent`: the state is
`(contentParts, hasMultimodal)`. -/
def geminiPartStep (acc : List ContentPart × Bool) (part : GeminiPart) :
    List ContentPart × Bool :=
  let acc1 := if part.text ≠ "" then
      (acc.1 ++ [{ type := "text", text := part.text }], acc.2)
    else acc
  let acc2 := match part.inlineData with
    | some d =>
        (acc1.1 ++ [{ type := "image_url",
                      imageURL := some ⟨"data:" ++ d.mimeType ++ ";base64," ++ d.data⟩ }],
         true)
    | none => acc1
  match part.fileData with
  | some fd =>
      if fd.mimeType.startsWith "image/" then
        (acc2.1 ++ [{ type := "image_url", imageURL := some ⟨fd.fileURI⟩ }], true)
      else if fd.mimeType.startsWith "audio/" then
        (acc2.1 ++ [{ type := "text",
                      text := "[Audio file: " ++ fd.fileURI ++ "]" }], true)
      else (acc2.1, true)
  | none => acc2

/-- `processGeminiPartsToOpenAIContent`. -/
def processGeminiPartsToOpenAIContent (parts : List GeminiPart) : OpenAIContent :=
  if parts.length = 0 then .str ""
  else
    let res := parts.foldl geminiPartStep ([], false)
    match res.1, res.2 with
    | [cp], false => if cp.type = "text" then .str cp.text else .parts [cp]
    | cps, _ => .parts cps

/-- The per-`content` body of the loop of `toOpenAIRequestFromGemini`
(builds one OpenAI message per Gemini content whose converted content is not
the nil interface — `processGeminiPartsToOpenAIContent` never returns the
nil interface, so the Go guard `openaiContent != nil` always passes). -/
def geminiMsgsOfContents : List GeminiContent → List OpenAIMessage
  | [] => []
  | content :: rest =>
      let oc := processGeminiPartsToOpenAIContent content.parts
      if oc ≠ .null then
        { role := if content.role = RoleModel then RoleAssistant else content.role,
          content := oc } :: geminiMsgsOfContents rest
      else geminiMsgsOfContents rest

/-- `toOpenAIRequestFromGemini`.  The Go function starts from the literal
`OpenAIRequest` with model `"gpt-3.5-turbo"` and the default generation
parameters, appends the system message and the converted contents, and then
overrides each generation parameter only when the request carries a
generation config with a positive value for it. -/
def toOpenAIRequestFromGemini (g : GeminiRequest) : OpenAIRequest :=
  let sysMsgs : List OpenAIMessage :=
    match g.systemInstruction with
    | some si =>
        if si.parts.length > 0 then
          let systemContent := processGeminiPartsToOpenAIContent si.parts
          if systemContent ≠ .str "" then
            [{ role := RoleSystem, content := systemContent }]
          else []
        else []
    | none => []
  let mt := match g.generationConfig with
    | some cfg => if cfg.maxOutputTokens > 0 then cfg.maxOutputTokens else DefaultMaxTokens
    | none => DefaultMaxTokens
  let temp := match g.generationConfig with
    | some cfg => if cfg.temperature > 0 then cfg.temperature else DefaultTemperature
    | none => DefaultTemperature
  let tp := match g.generationConfig with
    | some cfg => if cfg.topP > 0 then cfg.topP else DefaultTopP
    | none => DefaultTopP
  { model := "gpt-3.5-turbo",
    messages := sysMsgs ++ geminiMsgsOfContents g.contents,
    maxTokens := mt,
    temperature := temp,
    topP := tp }

/-- `processGeminiResponseContent`: collect the non-empty texts of all
candidate parts and join them with a newline. -/
def processGeminiResponseContent (resp : GeminiResponse) : String :=
  if resp.candidates.length = 0 then ""
  else
    let contents := resp.candidates.foldl (fun acc cand =>
      cand.content.parts.foldl
        (fun a p => if p.text ≠ "" then a ++ [p.text] else a) acc) []
    goJoin contents "\n"

/-- `toOpenAIChatCompletionFromGemini`.  The usage counters — including the
total — are copied verbatim from `UsageMetadata`. -/
def toOpenAIChatCompletionFromGemini (env : Env) (resp : GeminiResponse)
    (model : String) : OpenAIResponse :=
  { id := "chatcmpl-" ++ env.uuid,
    object := "chat.completion",
    created := env.now,
    model := model,
    choices := [{ index := 0,
                  message := some { role := RoleAssistant,
                                    content := .str (processGeminiResponseContent resp) },
                  finishReason := "stop" }],
    usage := resp.usageMetadata.map (fun u =>
      { promptTokens := u.promptTokenCount,
        completionTokens := u.candidatesTokenCount,
        totalTokens := u.totalTokenCount }) }

/-- `toOpenAIStreamChunkFromGemini`: type-asserts the chunk to `string` and
wraps it into a fresh chunk envelope. -/
def toOpenAIStreamChunkFromGemini (env : Env) (data : ChunkData)
    (model : String) : Except String StreamChunk :=
  match data with
  | .str chunkText =>
      .ok { id := "chatcmpl-" ++ env.uuid,
            object := "chat.completion.chunk",
            created := env.now,
            model := model,
            choices := [{ index := 0,
                          delta := some { content := .str chunkText },
                          finishReason := "" }] }
  | _ => .error "expected string chunk for Gemini stream"

/-- `toOpenAIModelListFromGemini`: the body ignores the input and returns an
empty list. -/
def toOpenAIModelListFromGemini (_data : ListData) : ModelList :=
  { object := "list", data := [] }

/-! ### converter.go: Claude → OpenAI -/

/-- Body of the loop of `processClaudeContentToOpenAI`. -/
def claudeBlockStep (acc : List ContentPart × Bool) (block : ClaudeContent) :
    List ContentPart × Bool :=
  if block.type = "text" then
    if block.text ≠ "" then
      (acc.1 ++ [{ type := "text", text := block.text }], acc.2)
    else acc
  else if block.type = "image" then
    match block.source with
    | some src =>
        if src.type = "base64" then
          (acc.1 ++ [{ type := "image_url",
                       imageURL := some ⟨"data:" ++ src.mediaType ++ ";base64," ++ src.data⟩ }],
           true)
        else acc
    | none => acc
  else acc

/-- `processClaudeContentToOpenAI`. -/
def processClaudeContentToOpenAI (content : List ClaudeContent) : OpenAIContent :=
  if content.length = 0 then .str ""
  else
    let res := content.foldl claudeBlockStep ([], false)
    match res.1, res.2 with
    | [p], false => if p.type = "text" then .str p.text else .parts [p]
    | ps, _ => .parts ps

/-- Body of the message loop of `toOpenAIRequestFromClaude`: for a user
message every `tool_result` block is emitted as a separate tool message
before the message itself; for an assistant message the `tool_use` blocks
become `ToolCalls` and the content is replaced by the empty string. -/
def openAIFromClaudeMsgStep (acc : List OpenAIMessage) (msg : ClaudeMessage) :
    List OpenAIMessage :=
  let content := processClaudeContentToOpenAI msg.content
  let toolMsgs : List OpenAIMessage :=
    if msg.role = RoleUser then
      (msg.content.filter (fun item => item.type = "tool_result")).map
        (fun item => { role := RoleTool, toolCallID := item.toolUseID,
                       content := .str (goFormatV item.content) })
    else []
  let toolCalls : List ToolCall :=
    if msg.role = RoleAssistant then
      (msg.content.filter (fun item => item.type = "tool_use")).map
        (fun item => { id := item.id, type := "function",
                       function := { name := item.name,
                                     arguments := marshalJSON item.input } })
    else []
  let m0 : OpenAIMessage := { role := msg.role, content := content }
  let openaiMsg :=
    if toolCalls.length > 0 then
      { m0 with toolCalls := toolCalls, content := .str "" }
    else m0
  acc ++ toolMsgs ++
    (if openaiMsg.content ≠ .null ∨ openaiMsg.toolCalls.length > 0 then
       [openaiMsg]
     else [])

/-- `toOpenAIRequestFromClaude`. -/
def toOpenAIRequestFromClaude (r : ClaudeRequest) : OpenAIRequest :=
  let sysMsgs : List OpenAIMessage :=
    if r.system ≠ "" then [{ role := RoleSystem, content := .str r.system }]
    else []
  { model := r.model,
    messages := r.messages.foldl openAIFromClaudeMsgStep sysMsgs,
    maxTokens := checkAndAssignOrDefault r.maxTokens DefaultMaxTokens,
    temperature := checkAndAssignOrDefault r.temperature DefaultTemperature,
    topP := checkAndAssignOrDefault r.topP DefaultTopP,
    stream := r.stream,
    tools := if r.tools.length > 0 then
        r.tools.map (fun tool =>
          { type := "function",
            function := { name := tool.name, description := tool.description,
                          parameters := tool.inputSchema } })
      else [] }

/-- `processClaudeResponseContent`: `text` blocks are kept (even when the
text is empty) and `thinking` blocks are wrapped in a thinking tag. -/
def processClaudeResponseContent (content : List ClaudeContent) : OpenAIContent :=
  if content.length = 0 then .str ""
  else
    let parts := content.foldl (fun acc block =>
      if block.type = "text" then
        acc ++ [({ type := "text", text := block.text } : ContentPart)]
      else if block.type = "thinking" then
        acc ++ [({ type := "text",
                   text := "<thinking>" ++ block.thinking ++ "</thinking>" } : ContentPart)]
      else acc) []
    match parts with
    | [p] => if p.type = "text" then .str p.text else .parts [p]
    | ps => .parts ps

/-- `mapClaudeStopReason`: note the switch has no `tool_use` case, so
`tool_use` falls through to the default branch. -/
def mapClaudeStopReason (reason : String) : String :=
  if reason = "end_turn" then "stop"
  else if reason = "max_tokens" then "length"
  else if reason = "stop_sequence" then "stop"
  else "stop"

/-- `toOpenAIChatCompletionFromClaude`.  The usage total is recomputed as
`InputTokens + OutputTokens`. -/
def toOpenAIChatCompletionFromClaude (env : Env) (resp : ClaudeResponse)
    (model : String) : OpenAIResponse :=
  { id := "chatcmpl-" ++ env.uuid,
    object := "chat.completion",
    created := env.now,
    model := model,
    choices := [{ index := 0,
                  message := some { role := RoleAssistant,
                                    content := processClaudeResponseContent resp.content },
                  finishReason := mapClaudeStopReason resp.stopReason }],
    usage := resp.usage.map (fun u =>
      { promptTokens := u.inputTokens,
        completionTokens := u.outputTokens,
        totalTokens := u.inputTokens + u.outputTokens }) }

/-- `toOpenAIStreamChunkFromClaude`: type-asserts the chunk to `string` and
wraps it immediately into a fresh chunk envelope — there is no per-call-id
accumulator anywhere in the converter (`DefaultConverter` has no fields). -/
def toOpenAIStreamChunkFromClaude (env : Env) (data : ChunkData)
    (model : String) : Except String StreamChunk :=
  match data with
  | .str claudeChunk =>
      .ok { id := "chatcmpl-" ++ env.uuid,
            object := "chat.completion.chunk",
            created := env.now,
            model := model,
            choices := [{ index := 0,
                          delta := some { content := .str claudeChunk },
                          finishReason := "" }] }
  | _ => .error "expected string chunk for Claude stream"

/-- `toOpenAIModelListFromClaude`: ignores the input, returns an empty list. -/
def toOpenAIModelListFromClaude (_data : ListData) : ModelList :=
  { object := "list", data := [] }

/-! ### converter.go: OpenAI → Claude / Gemini -/

/-- Per-part body of the content loop of `toClaudeRequestFromOpenAI`:
text parts pass through; `image_url` parts are kept only when they carry a
splittable `data:` URL. -/
def claudePartBlocks (part : ContentPart) : List ClaudeContent :=
  if part.type = "text" then
    [{ type := "text", text := part.text }]
  else if part.type = "image_url" then
    match part.imageURL with
    | some iu =>
        if iu.url.startsWith "data:" then
          match goSplitN2 iu.url "," with
          | [header, data] =>
              [{ type := "image",
                 source := some { type := "base64",
                                  mediaType := goTrimPfx (goSplitHead header ";") "data:",
                                  data := data } }]
          | _ => []
        else []
    | none => []
  else []

def claudeContentOfParts : List ContentPart → List ClaudeContent
  | [] => []
  | p :: rest => claudePartBlocks p ++ claudeContentOfParts rest

/-- The Claude message built for one non-system OpenAI message in
`toClaudeRequestFromOpenAI`: the content parts are converted first; a tool
message is then rewritten into a user message holding a single
`tool_result` block; tool calls finally replace the content with
`tool_use` blocks. -/
def claudeMsgOfOpenAI (msg : OpenAIMessage) : ClaudeMessage :=
  let base : ClaudeMessage :=
    { role := msg.role, content := claudeContentOfParts msg.GetContentAsParts }
  let afterTool : ClaudeMessage :=
    if msg.role = RoleTool then
      { role := RoleUser,
        content := [{ type := "tool_result", toolUseID := msg.toolCallID,
                      content := some msg.GetContentAsString }] }
    else base
  if msg.toolCalls.length > 0 then
    { afterTool with content := msg.toolCalls.map (fun tc =>
        { type := "tool_use", id := tc.id, name := tc.function.name,
          input := jsonUnmarshalObj tc.function.arguments }) }
  else afterTool

/-- The message loop of `toClaudeRequestFromOpenAI`, threading exactly the
state the Go loop mutates: the `System` field (overwritten by every system
message, which contributes no Claude message) and the `Messages` slice (a
converted message is appended only when its content is non-empty). -/
def claudeLoop : List OpenAIMessage → String → List ClaudeMessage →
    String × List ClaudeMessage
  | [], sys, msgs => (sys, msgs)
  | msg :: rest, sys, msgs =>
      if msg.role = RoleSystem then
        claudeLoop rest msg.GetContentAsString msgs
      else
        let finalMsg := claudeMsgOfOpenAI msg
        if finalMsg.content.length > 0 then
          claudeLoop rest sys (msgs ++ [finalMsg])
        else claudeLoop rest sys msgs

/-- `toClaudeRequestFromOpenAI`. -/
def toClaudeRequestFromOpenAI (r : OpenAIRequest) : ClaudeRequest :=
  let res := claudeLoop r.messages "" []
  { model := r.model,
    messages := res.2,
    system := res.1,
    maxTokens := checkAndAssignOrDefault r.maxTokens DefaultMaxTokens,
    temperature := checkAndAssignOrDefault r.temperature DefaultTemperature,
    topP := checkAndAssignOrDefault r.topP DefaultTopP,
    stream := r.stream,
    tools := if r.tools.length > 0 then
        r.tools.map (fun tool =>
          { name := tool.function.name,
            description := tool.function.description,
            inputSchema := tool.function.parameters })
      else [] }

/-- The system-message partition loop of `toGeminiRequestFromOpenAI`:
returns `(systemTexts, nonSystemMessages)` in source order. -/
def splitSystemMessages : List OpenAIMessage → List String × List OpenAIMessage
  | [] => ([], [])
  | msg :: rest =>
      let res := splitSystemMessages rest
      if msg.role = RoleSystem then (msg.GetContentAsString :: res.1, res.2)
      else (res.1, msg :: res.2)

/-- Per-part body of the content loop of `toGeminiRequestFromOpenAI`:
`data:` URLs become inline data; other URLs become file data tagged
`image/jpeg`. -/
def geminiPartsOfPart (part : ContentPart) : List GeminiPart :=
  if part.type = "text" then
    [{ text := part.text }]
  else if part.type = "image_url" then
    match part.imageURL with
    | some iu =>
        if iu.url.startsWith "data:" then
          match goSplitN2 iu.url "," with
          | [header, data] =>
              [{ inlineData := some
                   { mimeType := goTrimPfx (goSplitHead header ";") "data:",
                     data := data } }]
          | _ => []
        else
          [{ fileData := some { mimeType := "image/jpeg", fileURI := iu.url } }]
    | none => []
  else []

def geminiPartsOfParts : List ContentPart → List GeminiPart
  | [] => []
  | p :: rest => geminiPartsOfPart p ++ geminiPartsOfParts rest

/-- The non-system message loop of `toGeminiRequestFromOpenAI`: the
assistant role is renamed to `model`, and a content entry is emitted only
when it has at least one part. -/
def geminiContentsOfMessages : List OpenAIMessage → List GeminiContent
  | [] => []
  | msg :: rest =>
      let gc : GeminiContent :=
        { role := if msg.role = RoleAssistant then RoleModel else msg.role,
          parts := geminiPartsOfParts msg.GetContentAsParts }
      if gc.parts.length > 0 then gc :: geminiContentsOfMessages rest
      else geminiContentsOfMessages rest

/-- `toGeminiRequestFromOpenAI`. -/
def toGeminiRequestFromOpenAI (r : OpenAIRequest) : GeminiRequest :=
  let res := splitSystemMessages r.messages
  let sysInstr : Option GeminiSystemInstruction :=
    if res.1.length > 0 then
      some { parts := [{ text := goJoin res.1 "\n" }] }
    else none
  { contents := geminiContentsOfMessages res.2,
    systemInstruction := sysInstr,
    generationConfig := some
      { temperature := checkAndAssignOrDefault r.temperature DefaultTemperature,
        topP := checkAndAssignOrDefault r.topP DefaultTopP,
        maxOutputTokens := checkAndAssignOrDefault r.maxTokens DefaultGeminiMaxTokens },
    tools := if r.tools.length > 0 then
        [{ functionDeclarations := r.tools.map (fun tool =>
            { name := tool.function.name,
              description := tool.function.description,
              parameters := tool.function.parameters }) }]
      else [] }

/-! ### converter.go: stub conversions

The source marks these "Implementation would follow similar pattern" and
returns an empty struct (or the nil interface) with a nil error. -/

def toClaudeRequestFromGemini (_data : ReqData) : Except String ClaudeRequest :=
  .ok {}

def toGeminiRequestFromClaude (_data : ReqData) : Except String GeminiRequest :=
  .ok {}

def toClaudeChatCompletionFromOpenAI (_data : RespData) (_model : String) :
    Except String ClaudeResponse :=
  .ok {}

def toClaudeChatCompletionFromGemini (_data : RespData) (_model : String) :
    Except String ClaudeResponse :=
  .ok {}

def toClaudeStreamChunkFromOpenAI (_data : ChunkData) (_model : String) :
    Except String ChunkData :=
  .ok .null

def toClaudeStreamChunkFromGemini (_data : ChunkData) (_model : String) :
    Except String ChunkData :=
  .ok .null

/-! ### converter.go: the dispatch methods of DefaultConverter

The Go type assertions `data.(*models.XRequest)` fall back to a JSON
re-marshal of the payload when the assertion fails; that fallback is not
modelled (every modelled call passes the payload shape of the declared
source dialect), so a shape mismatch is rendered as an error. -/

def asOpenAIReq : ReqData → Except String OpenAIRequest
  | .openaiReq r => .ok r
  | _ => .error "json re-marshal fallback not modelled"

def asClaudeReq : ReqData → Except String ClaudeRequest
  | .claudeReq r => .ok r
  | _ => .error "json re-marshal fallback not modelled"

def asGeminiReq : ReqData → Except String GeminiRequest
  | .geminiReq r => .ok r
  | _ => .error "json re-marshal fallback not modelled"

def asClaudeResp : RespData → Except String ClaudeResponse
  | .claudeResp r => .ok r
  | _ => .error "json re-marshal fallback not modelled"

def asGeminiResp : RespData → Except String GeminiResponse
  | .geminiResp r => .ok r
  | _ => .error "json re-marshal fallback not modelled"

/-- `DefaultConverter.ConvertRequest`. -/
def ConvertRequest (data : ReqData) (fromProvider toProvider : Protocol) :
    Except String ReqData :=
  if fromProvider = toProvider then .ok data
  else
    match toProvider, fromProvider with
    | .openai, .gemini => (asGeminiReq data).map (fun g => .openaiReq (toOpenAIRequestFromGemini g))
    | .openai, .claude => (asClaudeReq data).map (fun r => .openaiReq (toOpenAIRequestFromClaude r))
    | .claude, .openai => (asOpenAIReq data).map (fun r => .claudeReq (toClaudeRequestFromOpenAI r))
    | .claude, .gemini => (toClaudeRequestFromGemini data).map .claudeReq
    | .gemini, .openai => (asOpenAIReq data).map (fun r => .geminiReq (toGeminiRequestFromOpenAI r))
    | .gemini, .claude => (toGeminiRequestFromClaude data).map .geminiReq
    | _, _ => .error ("unsupported conversion from " ++ protocolName fromProvider
        ++ " to " ++ protocolName toProvider)

/-- `DefaultConverter.ConvertResponse`. -/
def ConvertResponse (env : Env) (data : RespData)
    (fromProvider toProvider : Protocol) (model : String) :
    Except String RespData :=
  if fromProvider = toProvider then .ok data
  else
    match toProvider, fromProvider with
    | .openai, .gemini => (asGeminiResp data).map
        (fun r => .openaiResp (toOpenAIChatCompletionFromGemini env r model))
    | .openai, .claude => (asClaudeResp data).map
        (fun r => .openaiResp (toOpenAIChatCompletionFromClaude env r model))
    | .claude, .openai => (toClaudeChatCompletionFromOpenAI data model).map .claudeResp
    | .claude, .gemini => (toClaudeChatCompletionFromGemini data model).map .claudeResp
    | _, _ => .error ("unsupported response conversion from "
        ++ protocolName fromProvider ++ " to " ++ protocolName toProvider)

/-- `DefaultConverter.ConvertStreamChunk`. -/
def ConvertStreamChunk (env : Env) (data : ChunkData)
    (fromProvider toProvider : Protocol) (model : String) :
    Except String ChunkData :=
  if fromProvider = toProvider then .ok data
  else
    match toProvider, fromProvider with
    | .openai, .gemini => (toOpenAIStreamChunkFromGemini env data model).map .chunk
    | .openai, .claude => (toOpenAIStreamChunkFromClaude env data model).map .chunk
    | .claude, .openai => toClaudeStreamChunkFromOpenAI data model
    | .claude, .gemini => toClaudeStreamChunkFromGemini data model
    | _, _ => .error ("unsupported stream chunk conversion from "
        ++ protocolName fromProvider ++ " to " ++ protocolName toProvider)

/-- `DefaultConverter.ConvertModelList`. -/
def ConvertModelList (data : ListData) (fromProvider toProvider : Protocol) :
    Except String ListData :=
  if fromProvider = toProvider then .ok data
  else
    match toProvider, fromProvider with
    | .openai, .gemini => .ok (.list (toOpenAIModelListFromGemini data))
    | .openai, .claude => .ok (.list (toOpenAIModelListFromClaude data))
    | _, _ => .error ("unsupported model list conversion from "
        ++ protocolName fromProvider ++ " to " ++ protocolName toProvider)

/-! ### Observation helpers and concrete inputs used by the theorems -/

/-- The usage block of a successfully converted OpenAI response. -/
def respUsage : Except String RespData → Option Usage
  | .ok (.openaiResp o) => o.usage
  | _ => none

/-- The finish reasons of a successfully converted OpenAI response. -/
def respFinishReasons : Except String RespData → List String
  | .ok (.openaiResp o) => o.choices.map (·.finishReason)
  | _ => []

/-- The delta contents carried by a successfully converted stream chunk. -/
def chunkDeltaContents : Except String ChunkData → List OpenAIContent
  | .ok (.chunk c) => c.choices.map (fun ch => (ch.delta.map (·.content)).getD .null)
  | _ => []

def msgSysA : OpenAIMessage := { role := "system", content := .str "A" }

def msgSysB : OpenAIMessage := { role := "system", content := .str "B" }

/-- An OpenAI request holding two system messages with texts "A" and "B". -/
def reqAB : OpenAIRequest := { model := "m", messages := [msgSysA, msgSysB] }

/-! ### Shared lemmas -/

theorem checkAndAssignOrDefault_eq {T : Type} [Zero T] [DecidableEq T]
    (v d : T) : checkAndAssignOrDefault v d = if v = 0 then d else v := by
  unfold checkAndAssignOrDefault
  by_cases h : v = 0 <;> simp [h]

theorem checkAndAssignOrDefault_ne_zero {T : Type} [Zero T] [DecidableEq T]
    (v d : T) (hd : d ≠ 0) : checkAndAssignOrDefault v d ≠ 0 := by
  unfold checkAndAssignOrDefault
  by_cases h : v = 0 <;> simp [h, hd]

theorem splitSystemMessages_append (l l' : List OpenAIMessage) :
    splitSystemMessages (l ++ l')
      = ((splitSystemMessages l).1 ++ (splitSystemMessages l').1,
         (splitSystemMessages l).2 ++ (splitSystemMessages l').2) := by
  induction l with
  | nil => simp [splitSystemMessages]
  | cons m t ih =>
      simp only [List.cons_append, splitSystemMessages]
      by_cases h : m.role = RoleSystem <;> simp [h, ih]

theorem splitSystemMessages_noSys (l : List OpenAIMessage)
    (h : ∀ m ∈ l, m.role ≠ RoleSystem) : (splitSystemMessages l).1 = [] := by
  induction l with
  | nil => rfl
  | cons m t ih =>
      have hm : m.role ≠ RoleSystem := h m (by simp)
      simp [splitSystemMessages, hm]
      exact ih (fun x hx => h x (by simp [hx]))

theorem claudeLoop_append (l l' : List OpenAIMessage) (sys : String)
    (msgs : List ClaudeMessage) :
    claudeLoop (l ++ l') sys msgs
      = claudeLoop l' (claudeLoop l sys msgs).1 (claudeLoop l sys msgs).2 := by
  induction l generalizing sys msgs with
  | nil => rfl
  | cons m t ih =>
      simp only [List.cons_append, claudeLoop]
      by_cases h : m.role = RoleSystem
      · simp [h, ih]
      · simp only [if_neg h]
        by_cases h2 : (claudeMsgOfOpenAI m).content.length > 0 <;> simp [h2, ih]

theorem claudeLoop_sys_noSys (l : List OpenAIMessage) (sys : String)
    (msgs : List ClaudeMessage) (h : ∀ m ∈ l, m.role ≠ RoleSystem) :
    (claudeLoop l sys msgs).1 = sys := by
  induction l generalizing sys msgs with
  | nil => rfl
  | cons m t ih =>
      have hm : m.role ≠ RoleSystem := h m (by simp)
      simp only [claudeLoop, if_neg hm]
      have ht : ∀ x ∈ t, x.role ≠ RoleSystem := fun x hx => h x (by simp [hx])
      by_cases h2 : (claudeMsgOfOpenAI m).content.length > 0 <;> simp [h2, ih _ _ ht]

/-! ### The claims -/

/-- C8: for every dialect X, `ConvertRequest(r, X, X)` and
`ConvertResponse(s, X, X, m)` return the input itself with no error (the
identity short-circuit).  (Pointer-level "no reallocation" is not
observable in this embedding; the result is the input value itself.) -/
theorem C8_identity_short_circuit (env : Env) (d : ReqData) (s : RespData)
    (X : Protocol) (m : String) :
    ConvertRequest d X X = .ok d ∧ ConvertResponse env s X X m = .ok s :=
  ⟨by simp [ConvertRequest], by simp [ConvertResponse]⟩

/-- C10: every Gemini request converted to the OpenAI dialect gets the
constant model `"gpt-3.5-turbo"`; the `GeminiRequest` struct carries no
model identifier that could be propagated. -/
theorem C10_gemini_request_model_is_constant (g : GeminiRequest) :
    ConvertRequest (.geminiReq g) .gemini .openai
      = .ok (.openaiReq (toOpenAIRequestFromGemini g))
    ∧ (toOpenAIRequestFromGemini g).model = "gpt-3.5-turbo" :=
  ⟨rfl, rfl⟩

/-- C9: a zero-valued numeric generation parameter on an OpenAI request is
replaced by the default on conversion toward Claude or Gemini
(`checkAndAssignOrDefault` compares against the zero value), so an
explicitly requested zero value never reaches the destination request. -/
theorem C9_zero_generation_params_become_defaults (r : OpenAIRequest) :
    ((toClaudeRequestFromOpenAI r).temperature
        = (if r.temperature = 0 then DefaultTemperature else r.temperature)
      ∧ (toClaudeRequestFromOpenAI r).topP
        = (if r.topP = 0 then DefaultTopP else r.topP)
      ∧ (toClaudeRequestFromOpenAI r).maxTokens
        = (if r.maxTokens = 0 then DefaultMaxTokens else r.maxTokens)
      ∧ (toClaudeRequestFromOpenAI r).temperature ≠ 0
      ∧ (toClaudeRequestFromOpenAI r).topP ≠ 0
      ∧ (toClaudeRequestFromOpenAI r).maxTokens ≠ 0)
    ∧ ∃ cfg, (toGeminiRequestFromOpenAI r).generationConfig = some cfg
      ∧ cfg.temperature = (if r.temperature = 0 then DefaultTemperature else r.temperature)
      ∧ cfg.topP = (if r.topP = 0 then DefaultTopP else r.topP)
      ∧ cfg.maxOutputTokens = (if r.maxTokens = 0 then DefaultGeminiMaxTokens else r.maxTokens)
      ∧ cfg.temperature ≠ 0 ∧ cfg.topP ≠ 0 ∧ cfg.maxOutputTokens ≠ 0 := by
  refine ⟨⟨checkAndAssignOrDefault_eq _ _, checkAndAssignOrDefault_eq _ _,
           checkAndAssignOrDefault_eq _ _,
           checkAndAssignOrDefault_ne_zero _ _ (by norm_num [DefaultTemperature]),
           checkAndAssignOrDefault_ne_zero _ _ (by norm_num [DefaultTopP]),
           checkAndAssignOrDefault_ne_zero _ _ (by norm_num [DefaultMaxTokens])⟩,
         _, rfl,
         checkAndAssignOrDefault_eq _ _, checkAndAssignOrDefault_eq _ _,
         checkAndAssignOrDefault_eq _ _,
         checkAndAssignOrDefault_ne_zero _ _ (by norm_num [DefaultTemperature]),
         checkAndAssignOrDefault_ne_zero _ _ (by norm_num [DefaultTopP]),
         checkAndAssignOrDefault_ne_zero _ _ (by norm_num [DefaultGeminiMaxTokens])⟩

/-- C5 counterexample: a Claude response that stopped with `"tool_use"`
converts to an OpenAI response with finish reason `"stop"`, not the
`"tool_calls"` the claim requires (`mapClaudeStopReason` has no `tool_use`
case, so it falls to the default branch). -/
theorem C5_counterexample_tool_use_maps_to_stop :
    respFinishReasons (ConvertResponse ⟨"u", 0⟩
        (.claudeResp { stopReason := "tool_use" }) .claude .openai "m") = ["stop"]
    ∧ "stop" ≠ "tool_calls" := by
  exact ⟨by decide, by decide⟩

/-- C5 (amended): every Claude→OpenAI response conversion maps the stop
reason through `mapClaudeStopReason`, which sends `end_turn` to `stop` and
`max_tokens` to `length` as the claim states, but sends every other reason
— `stop_sequence` and, through the default branch, `tool_use` as well — to
`stop`; no reason ever maps to `tool_calls`. -/
theorem C5_claude_stop_reason_mapping (env : Env) (resp : ClaudeResponse)
    (m s : String) :
    (toOpenAIChatCompletionFromClaude env resp m).choices.map (·.finishReason)
        = [mapClaudeStopReason resp.stopReason]
    ∧ mapClaudeStopReason "end_turn" = "stop"
    ∧ mapClaudeStopReason "max_tokens" = "length"
    ∧ mapClaudeStopReason "stop_sequence" = "stop"
    ∧ mapClaudeStopReason s = (if s = "max_tokens" then "length" else "stop") := by
  refine ⟨rfl, rfl, rfl, rfl, ?_⟩
  unfold mapClaudeStopReason
  by_cases h1 : s = "end_turn"
  · subst h1; decide
  · by_cases h2 : s = "max_tokens"
    · subst h2; decide
    · by_cases h3 : s = "stop_sequence"
      · subst h3; decide
      · simp [h1, h2, h3]

/-- C2 counterexample: a Gemini response whose upstream usage metadata
reports an inconsistent total (10 prompt + 15 candidates, total 999)
converts to an OpenAI response whose usage carries the total 999 verbatim —
the total is copied, not recomputed. -/
theorem C2_counterexample_gemini_total_copied :
    respUsage (ConvertResponse ⟨"u", 0⟩
        (.geminiResp { usageMetadata := some ⟨10, 15, 999⟩ }) .gemini .openai "m")
      = some ⟨10, 15, 999⟩
    ∧ (999 : Int) ≠ 10 + 15 := by
  exact ⟨by decide, by decide⟩

/-- C2 (amended): in the Claude→OpenAI response conversion the usage total
is recomputed as `inputTokens + outputTokens`; in the Gemini→OpenAI
conversion all three counters, the total included, are copied verbatim
from the upstream usage metadata. -/
theorem C2_usage_totals (env : Env) (m : String) (cr : ClaudeResponse)
    (gr : GeminiResponse) :
    (toOpenAIChatCompletionFromClaude env cr m).usage
        = cr.usage.map (fun u => { promptTokens := u.inputTokens,
                                   completionTokens := u.outputTokens,
                                   totalTokens := u.inputTokens + u.outputTokens })
    ∧ (∀ u, (toOpenAIChatCompletionFromClaude env cr m).usage = some u →
        u.totalTokens = u.promptTokens + u.completionTokens)
    ∧ (toOpenAIChatCompletionFromGemini env gr m).usage
        = gr.usageMetadata.map (fun u => { promptTokens := u.promptTokenCount,
                                           completionTokens := u.candidatesTokenCount,
                                           totalTokens := u.totalTokenCount }) := by
  refine ⟨rfl, ?_, rfl⟩
  intro u hu
  have h1 : (toOpenAIChatCompletionFromClaude env cr m).usage
      = cr.usage.map (fun w => ({ promptTokens := w.inputTokens,
                                  completionTokens := w.outputTokens,
                                  totalTokens := w.inputTokens + w.outputTokens } : Usage)) := rfl
  rw [h1] at hu
  rcases hc : cr.usage with _ | cu
  · rw [hc] at hu
    exact Option.noConfusion hu
  · rw [hc] at hu
    have h2 : ({ promptTokens := cu.inputTokens, completionTokens := cu.outputTokens,
                 totalTokens := cu.inputTokens + cu.outputTokens } : Usage) = u :=
      Option.some.inj hu
    rw [← h2]

/-- C2 witness: instantiating the amended theorem at a concrete Claude
response with usage 3 + 4. -/
theorem C2_usage_totals_witness :
    (toOpenAIChatCompletionFromClaude ⟨"u", 0⟩
        ({ usage := some ⟨3, 4⟩ } : ClaudeResponse) "m").usage = some ⟨3, 4, 7⟩
    ∧ (⟨3, 4, 7⟩ : Usage).totalTokens
        = (⟨3, 4, 7⟩ : Usage).promptTokens + (⟨3, 4, 7⟩ : Usage).completionTokens :=
  ⟨by decide,
   (C2_usage_totals ⟨"u", 0⟩ "m" { usage := some ⟨3, 4⟩ } {}).2.1 ⟨3, 4, 7⟩ (by decide)⟩

/-- C4 counterexample: the first tool-call argument fragment of the claim
arrives and is emitted immediately as a plain content delta — before any
completion signal and without assembly — contradicting buffered,
completion-deferred emission. -/
theorem C4_counterexample_fragment_not_buffered :
    chunkDeltaContents (ConvertStreamChunk ⟨"u", 0⟩ (.str "\x7b\"loc")
        .claude .openai "m")
      = [.str "\x7b\"loc"] := by
  decide

/-- C4 (amended): the stream chunk converter is stateless; every fragment
(a raw string) is immediately wrapped into one OpenAI chunk whose delta
content is the fragment verbatim.  There is no per-call-id accumulator and
no deferred emission anywhere in the converter. -/
theorem C4_stream_chunks_wrapped_immediately (env : Env) (s m : String) :
    ConvertStreamChunk env (.str s) .claude .openai m
      = .ok (.chunk { id := "chatcmpl-" ++ env.uuid,
                      object := "chat.completion.chunk",
                      created := env.now,
                      model := m,
                      choices := [{ index := 0,
                                    delta := some { content := .str s },
                                    finishReason := "" }] })
    ∧ ConvertStreamChunk env (.str s) .gemini .openai m
      = .ok (.chunk { id := "chatcmpl-" ++ env.uuid,
                      object := "chat.completion.chunk",
                      created := env.now,
                      model := m,
                      choices := [{ index := 0,
                                    delta := some { content := .str s },
                                    finishReason := "" }] }) :=
  ⟨rfl, rfl⟩

/-- C7 counterexample: a non-empty Gemini model list converts to an OpenAI
list with zero entries — nothing is stripped or passed through. -/
theorem C7_counterexample_nonempty_list_becomes_empty :
    ConvertModelList (.list { object := "list",
                              data := [{ id := "models/gemini-pro", object := "model",
                                         created := 123, ownedBy := "google" }] })
        .gemini .openai
      = .ok (.list { object := "list", data := [] }) := by
  rfl

/-- C7 (amended): `ConvertModelList` toward OpenAI ignores its input
entirely and returns an empty list tagged `"list"` (the Gemini and Claude
source functions are stubs); destinations other than OpenAI are rejected
with an error naming both dialects. -/
theorem C7_model_list_to_openai_is_empty (d : ListData) :
    ConvertModelList d .gemini .openai = .ok (.list { object := "list", data := [] })
    ∧ ConvertModelList d .claude .openai = .ok (.list { object := "list", data := [] })
    ∧ ConvertModelList d .openai .claude
        = .error "unsupported model list conversion from openai to claude" := by
  exact ⟨rfl, rfl, rfl⟩

/-- C1: evaluation at the failing input.  The stubbed Gemini→Claude request
conversion returns the empty `ClaudeRequest` (no messages, empty system,
zero max tokens) with no error — a partially-populated result — and the
Claude→Gemini direction does the same; by contrast a pair with no dispatch
entry at all (response conversion toward Gemini) does return the error
naming both dialects. -/
theorem C1_stubbed_pair_returns_empty_request :
    ConvertRequest (.geminiReq { contents := [{ role := "user",
                                                parts := [{ text := "Hello" }] }] })
        .gemini .claude
      = .ok (.claudeReq {})
    ∧ ({} : ClaudeRequest).messages = [] ∧ ({} : ClaudeRequest).system = ""
      ∧ ({} : ClaudeRequest).maxTokens = 0
    ∧ ConvertRequest (.claudeReq { model := "claude-3" }) .claude .gemini
      = .ok (.geminiReq {})
    ∧ ConvertResponse ⟨"u", 0⟩ (.openaiResp {}) .openai .gemini "m"
      = .error "unsupported response conversion from openai to gemini" := by
  exact ⟨rfl, rfl, rfl, rfl, rfl, rfl⟩

/-- C6: the default-substitution rule holds in every implemented direction
(OpenAI→Claude and Claude→OpenAI default to 8192, OpenAI→Gemini defaults to
65536, Gemini→OpenAI defaults to 8192, positive source values pass
through), but the stubbed Gemini→Claude direction — toward the dialect that
requires `max_tokens` — leaves the field 0 (the failing input). -/
theorem C6_max_tokens_defaults (r : OpenAIRequest) (g : GeminiRequest)
    (cr : ClaudeRequest) :
    (toClaudeRequestFromOpenAI r).maxTokens
        = (if r.maxTokens = 0 then DefaultMaxTokens else r.maxTokens)
    ∧ (∃ cfg, (toGeminiRequestFromOpenAI r).generationConfig = some cfg
        ∧ cfg.maxOutputTokens
            = (if r.maxTokens = 0 then DefaultGeminiMaxTokens else r.maxTokens))
    ∧ (toOpenAIRequestFromClaude cr).maxTokens
        = (if cr.maxTokens = 0 then DefaultMaxTokens else cr.maxTokens)
    ∧ (toOpenAIRequestFromGemini g).maxTokens
        = (match g.generationConfig with
           | none => DefaultMaxTokens
           | some cfg => if cfg.maxOutputTokens > 0 then cfg.maxOutputTokens
                         else DefaultMaxTokens)
    ∧ ConvertRequest (.geminiReq g) .gemini .claude = .ok (.claudeReq {}) := by
  have h4 : (toOpenAIRequestFromGemini g).maxTokens
      = (match g.generationConfig with
         | none => DefaultMaxTokens
         | some cfg => if cfg.maxOutputTokens > 0 then cfg.maxOutputTokens
                       else DefaultMaxTokens) := by
    rcases hg : g.generationConfig with _ | cfg <;>
      simp [toOpenAIRequestFromGemini, hg]
  refine ⟨checkAndAssignOrDefault_eq _ _,
          ⟨_, rfl, checkAndAssignOrDefault_eq _ _⟩,
          checkAndAssignOrDefault_eq _ _, h4, rfl⟩

/-- C3 counterexample: an OpenAI request with system messages "A" then "B"
converted toward Claude ends with system field "B" — the second system
message overwrites the first instead of newline-joining with it. -/
theorem C3_counterexample_claude_system_overwritten :
    (toClaudeRequestFromOpenAI reqAB).system = "B" ∧ "B" ≠ "A\nB" := by
  exact ⟨by decide, by decide⟩

/-- C3 (amended): for a request containing exactly two system messages with
texts a then b, conversion toward Gemini folds them into a single
systemInstruction part with the newline-joined text, while conversion
toward Claude keeps only the text of the last system message in the system
field (each system message overwrites it). -/
theorem C3_system_message_folding
    (r : OpenAIRequest) (l1 l2 l3 : List OpenAIMessage) (ma mb : OpenAIMessage)
    (a b : String)
    (hmsgs : r.messages = l1 ++ ma :: (l2 ++ mb :: l3))
    (h1 : ∀ m ∈ l1, m.role ≠ RoleSystem)
    (h2 : ∀ m ∈ l2, m.role ≠ RoleSystem)
    (h3 : ∀ m ∈ l3, m.role ≠ RoleSystem)
    (hma : ma.role = RoleSystem) (hmb : mb.role = RoleSystem)
    (ha : ma.GetContentAsString = a) (hb : mb.GetContentAsString = b) :
    (toGeminiRequestFromOpenAI r).systemInstruction
        = some { parts := [{ text := a ++ "\n" ++ b }] }
    ∧ (toClaudeRequestFromOpenAI r).system = b := by
  constructor
  · have hsplit1 : (splitSystemMessages r.messages).1 = [a, b] := by
      rw [hmsgs, splitSystemMessages_append, splitSystemMessages_noSys l1 h1]
      simp only [List.nil_append]
      simp only [splitSystemMessages, hma, if_pos]
      rw [splitSystemMessages_append, splitSystemMessages_noSys l2 h2]
      simp [splitSystemMessages, hmb, splitSystemMessages_noSys l3 h3, ha, hb]
    show (if (splitSystemMessages r.messages).1.length > 0 then
        some ({ parts := [{ text := goJoin (splitSystemMessages r.messages).1 "\n" }] }
          : GeminiSystemInstruction)
      else none) = some { parts := [{ text := a ++ "\n" ++ b }] }
    rw [hsplit1]
    simp [goJoin]
  · have hloop : (claudeLoop r.messages "" []).1 = b := by
      rw [hmsgs, claudeLoop_append]
      simp only [claudeLoop, hma, if_pos]
      rw [claudeLoop_append]
      simp only [claudeLoop, hmb, if_pos, hb]
      exact claudeLoop_sys_noSys l3 b _ h3
    exact hloop

/-- C3 witness: the amended theorem instantiated at the concrete request
with system messages "A" and "B". -/
theorem C3_system_message_folding_witness :
    (toGeminiRequestFromOpenAI reqAB).systemInstruction
        = some { parts := [{ text := "A" ++ "\n" ++ "B" }] }
    ∧ (toClaudeRequestFromOpenAI reqAB).system = "B" :=
  C3_system_message_folding reqAB [] [] [] msgSysA msgSysB "A" "B"
    rfl (by simp) (by simp) (by simp) rfl rfl rfl rfl

end GoAIProxy
